import Mathlib

/-!
Verification of the `ultimate_data_arc` archive reader.

The development shallowly embeds `src/parse.rs` and `src/lib.rs`:
byte buffers and the archive file are `List Nat` (one `Nat` per byte),
fixed-layout records are structures of `Nat` fields decoded little-endian,
fallible operations return `Except`, and Rust panics are modelled by a
distinguished `Panic` error constructor so that returned errors and crashes
stay distinguishable.
-/

/-- Little-endian interpretation of a byte list as a natural number. -/
def leNat : List Nat → Nat
  | [] => 0
  | b :: bs => b + 256 * leNat bs

/-- The sub-list of `n` bytes of `data` starting at byte offset `off`. -/
def readBytes (data : List Nat) (off n : Nat) : List Nat :=
  (data.drop off).take n

/-- Byte access with a zero default, used only at places where the
surrounding code has already checked the bounds. -/
def byteAt : List Nat → Nat → Nat
  | [], _ => 0
  | b :: _, 0 => b
  | _ :: t, i + 1 => byteAt t i

/-- Little-endian u16 field at byte offset `off`. -/
def leU16at (data : List Nat) (off : Nat) : Nat := leNat (readBytes data off 2)

/-- Little-endian u32 field at byte offset `off`. -/
def leU32at (data : List Nat) (off : Nat) : Nat := leNat (readBytes data off 4)

/-- Little-endian u64 field at byte offset `off`. -/
def leU64at (data : List Nat) (off : Nat) : Nat := leNat (readBytes data off 8)

/-- Failure modes of reading a record out of the metadata buffer.
`panicOOB` models the Rust panic raised by slicing `&buffer[off..]` with
`off` past the end; `scrollShort` models the error value returned by a
`pread` on a slice shorter than the record. -/
inductive ReadErr where
  | panicOOB
  | scrollShort
deriving DecidableEq, Repr

/-- Read `n` bytes at offset `off`, with the two failure modes of
`(&buffer[off..]).pread_with(0, LE)` in the source. -/
def sliceRead (data : List Nat) (off n : Nat) : Except ReadErr (List Nat) :=
  if off > data.length then .error .panicOOB
  else if off + n > data.length then .error .scrollShort
  else .ok (readBytes data off n)

/-! Record layouts from `src/parse.rs`. -/

structure ArcHeader where
  music_file_section_offset : Nat
  file_section_offset : Nat
  music_section_offset : Nat
  node_section_offset : Nat
  unk_section_offset : Nat
deriving DecidableEq, Repr

def ARC_HEADER_SIZE : Nat := 0x28

/-- Decode `ArcHeader` (five little-endian u64 fields) from a byte slice. -/
def decodeArcHeader (d : List Nat) : ArcHeader :=
  { music_file_section_offset := leU64at d 0
    file_section_offset := leU64at d 0x8
    music_section_offset := leU64at d 0x10
    node_section_offset := leU64at d 0x18
    unk_section_offset := leU64at d 0x20 }

structure CompressedNodeHeader where
  data_start : Nat
  decomp_size : Nat
  comp_size : Nat
  zstd_comp_size : Nat
deriving DecidableEq, Repr

def COMPRESSED_NODE_HEADER_SIZE : Nat := 0x10

def decodeCompressedNodeHeader (d : List Nat) : CompressedNodeHeader :=
  { data_start := leU32at d 0
    decomp_size := leU32at d 4
    comp_size := leU32at d 8
    zstd_comp_size := leU32at d 0xc }

structure NodeHeader where
  file_size : Nat
  folder_count : Nat
  file_count1 : Nat
  tree_count : Nat
  sub_files1_count : Nat
  file_lookup_count : Nat
  hash_folder_count : Nat
  file_information_count : Nat
  file_count2 : Nat
  sub_files2_count : Nat
  unk1 : Nat
  unk2 : Nat
  another_hash_table_size : Nat
  unk3 : Nat
  unk4 : Nat
  movie_count : Nat
  part1_count : Nat
  part2_count : Nat
  music_file_count : Nat
deriving DecidableEq, Repr

def NODE_HEADER_SIZE : Nat := 0x44

def decodeNodeHeader (d : List Nat) : NodeHeader :=
  { file_size := leU32at d 0
    folder_count := leU32at d 4
    file_count1 := leU32at d 8
    tree_count := leU32at d 0xc
    sub_files1_count := leU32at d 0x10
    file_lookup_count := leU32at d 0x14
    hash_folder_count := leU32at d 0x18
    file_information_count := leU32at d 0x1c
    file_count2 := leU32at d 0x20
    sub_files2_count := leU32at d 0x24
    unk1 := leU32at d 0x28
    unk2 := leU32at d 0x2c
    another_hash_table_size := byteAt d 0x30
    unk3 := byteAt d 0x31
    unk4 := leU16at d 0x32
    movie_count := leU32at d 0x34
    part1_count := leU32at d 0x38
    part2_count := leU32at d 0x3c
    music_file_count := leU32at d 0x40 }

structure EntryTriplet where
  hash : Nat
  meta : Nat
  meta2 : Nat
deriving DecidableEq, Repr

def ENTRY_TRIPLET_SIZE : Nat := 0xc

/-- The `read_triplet` decoder: 5 hash bytes are zero-padded into an 8-byte
little-endian buffer, the following 3 meta bytes into a 4-byte buffer. -/
def read_triplet (d : List Nat) : EntryTriplet :=
  { hash := leNat [byteAt d 0, byteAt d 1, byteAt d 2, byteAt d 3, byteAt d 4, 0, 0, 0]
    meta := leNat [byteAt d 5, byteAt d 6, byteAt d 7, 0]
    meta2 := leU32at d 0x8 }

structure EntryPair where
  hash : Nat
  meta : Nat
deriving DecidableEq, Repr

def ENTRY_PAIR_SIZE : Nat := 0x8

/-- The `read_pair` decoder: same packed decoding as `read_triplet`, without `meta2`. -/
def read_pair (d : List Nat) : EntryPair :=
  { hash := leNat [byteAt d 0, byteAt d 1, byteAt d 2, byteAt d 3, byteAt d 4, 0, 0, 0]
    meta := leNat [byteAt d 5, byteAt d 6, byteAt d 7, 0] }

structure BigHashEntry where
  path : EntryPair
  folder : EntryPair
  parent : EntryPair
  hash4 : EntryPair
  suboffset_start : Nat
  num_files : Nat
  unk3 : Nat
  unk4 : Nat
  unk5 : Nat
  unk6 : Nat
  unk7 : Nat
  unk8 : Nat
  unk9 : Nat
deriving DecidableEq, Repr

def BIG_HASH_ENTRY_SIZE : Nat := 0x34

def read_big_hash_entry (d : List Nat) : BigHashEntry :=
  { path := read_pair d
    folder := read_pair (d.drop 0x08)
    parent := read_pair (d.drop 0x10)
    hash4 := read_pair (d.drop 0x18)
    suboffset_start := leU32at d 0x20
    num_files := leU32at d 0x24
    unk3 := leU32at d 0x28
    unk4 := leU16at d 0x2c
    unk5 := leU16at d 0x2e
    unk6 := byteAt d 0x30
    unk7 := byteAt d 0x31
    unk8 := byteAt d 0x32
    unk9 := byteAt d 0x33 }

structure TreeEntry where
  path : EntryPair
  ext : EntryPair
  folder : EntryPair
  file : EntryPair
  suboffset_index : Nat
  flags : Nat
deriving DecidableEq, Repr

def TREE_ENTRY_SIZE : Nat := 0x28

def read_tree_entry (d : List Nat) : TreeEntry :=
  { path := read_pair d
    ext := read_pair (d.drop 0x08)
    folder := read_pair (d.drop 0x10)
    file := read_pair (d.drop 0x18)
    suboffset_index := leU32at d 0x20
    flags := leU32at d 0x24 }

structure FilePair where
  size : Nat
  offset : Nat
deriving DecidableEq, Repr

def FILE_PAIR_SIZE : Nat := 0x10

structure BigFileEntry where
  offset : Nat
  decomp_size : Nat
  comp_size : Nat
  suboffset_index : Nat
  files : Nat
  unk3 : Nat
deriving DecidableEq, Repr

def BIG_FILE_ENTRY_SIZE : Nat := 0x1c

def decodeBigFileEntry (d : List Nat) : BigFileEntry :=
  { offset := leU64at d 0
    decomp_size := leU32at d 8
    comp_size := leU32at d 0xc
    suboffset_index := leU32at d 0x10
    files := leU32at d 0x14
    unk3 := leU32at d 0x18 }

structure FileEntry where
  offset : Nat
  comp_size : Nat
  decomp_size : Nat
  flags : Nat
deriving DecidableEq, Repr

def FILE_ENTRY_SIZE : Nat := 0x10

def decodeFileEntry (d : List Nat) : FileEntry :=
  { offset := leU32at d 0
    comp_size := leU32at d 4
    decomp_size := leU32at d 8
    flags := leU32at d 0xc }

structure HashBucket where
  index : Nat
  num_entries : Nat
deriving DecidableEq, Repr

def HASH_BUCKET_SIZE : Nat := 0x08

def decodeHashBucket (d : List Nat) : HashBucket :=
  { index := leU32at d 0
    num_entries := leU32at d 4 }

/-! The `hash40` function from `src/lib.rs`.  The CRC32 comes from the
`crc` crate's `checksum_ieee`: the standard reflected CRC-32/ISO-HDLC,
initial value `0xFFFFFFFF`, reflected polynomial `0xEDB88320`, final xor
`0xFFFFFFFF`, embedded here bit by bit. -/

/-- One bit step of the reflected CRC32: shift right, conditionally xor
the reflected polynomial. -/
def crc32shift (c : Nat) : Nat :=
  if c % 2 = 1 then (c / 2) ^^^ 0xEDB88320 else c / 2

/-- Fold one input byte into the CRC32 state (8 bit steps). -/
def crc32update (c b : Nat) : Nat :=
  crc32shift (crc32shift (crc32shift (crc32shift
    (crc32shift (crc32shift (crc32shift (crc32shift (c ^^^ b))))))))

/-- The `crc` crate's `checksum_ieee` over a byte list. -/
def crc32 (bytes : List Nat) : Nat :=
  (bytes.foldl crc32update 0xFFFFFFFF) ^^^ 0xFFFFFFFF

/-- The `hash40` function from `src/lib.rs`: CRC32 of the path bytes or-ed with the
byte length truncated to 8 bits, shifted into bits 32..39. -/
def hash40 (name : List Nat) : Nat :=
  crc32 name ||| ((name.length &&& 0xFF) <<< 32)


/-! The archive accessor from `src/lib.rs`. -/

/-- Outcomes of `DataArc::new` / `DataArc::internal_new`.  `NotDataArc` and
`InternalError` are the two `ParseError` variants of the source; `Panic`
models a Rust panic (`unimplemented!()`, arithmetic overflow), which the
source does not turn into a `ParseError`. -/
inductive ParseOutcome where
  | NotDataArc
  | InternalError (msg : String)
  | Panic (msg : String)
deriving DecidableEq, Repr

/-- Outcomes of `DataArc::get_file`.  `FileNotFound` and `InternalError`
are the two `GetFileError` variants of the source; `Panic` models a Rust
panic (slice index out of bounds, `unimplemented!()`, division by zero). -/
inductive GetFileOutcome where
  | FileNotFound
  | InternalError (msg : String)
  | Panic (msg : String)
deriving DecidableEq, Repr

/-- The `DataArc` struct.  `fileData` together with `cursor` model the
open `File` handle (its bytes and its read position); `buffer` is the
fully-buffered metadata payload; the fifteen `Nat` fields are the section
offsets computed at construction. -/
structure DataArc where
  fileData : List Nat
  cursor : Nat
  header : ArcHeader
  buffer : List Nat
  first_hash_bucket : HashBucket
  bulkfile_hash_lookup : Nat
  bulkfiles_by_name : Nat
  bulkfile_lookup_to_fileidx : Nat
  file_pairs : Nat
  another_hash_table : Nat
  big_hashes : Nat
  big_files : Nat
  folder_hash_lookup : Nat
  trees : Nat
  sub_files1 : Nat
  sub_files2 : Nat
  folder_to_big_hash : Nat
  file_lookup_buckets : Nat
  file_lookup : Nat
  numbers : Nat
deriving DecidableEq, Repr

/-- The fifteen section offsets, as computed in `DataArc::internal_new`. -/
structure SectionOffsets where
  bulkfile_hash_lookup : Nat
  bulkfiles_by_name : Nat
  bulkfile_lookup_to_fileidx : Nat
  file_pairs : Nat
  another_hash_table : Nat
  big_hashes : Nat
  big_files : Nat
  folder_hash_lookup : Nat
  trees : Nat
  sub_files1 : Nat
  sub_files2 : Nat
  folder_to_big_hash : Nat
  file_lookup_buckets : Nat
  file_lookup : Nat
  numbers : Nat
deriving DecidableEq, Repr

/-- Section offset computation of `DataArc::internal_new`
(`src/lib.rs` lines 96-111).  Each offset advances the previous one by
`record size * count`; `file_count1 + file_count2` is a u32 addition in
the source, hence the `% 2^32`.  The `file_lookup` offset needs the first
`HashBucket`, read from the buffer at the just-computed
`file_lookup_buckets` offset; that read's two failure modes (slice panic,
scroll error) are mapped like the source maps them. -/
def computeOffsets (h : NodeHeader) (buffer : List Nat) :
    Except ParseOutcome (SectionOffsets × HashBucket) :=
  let bulkfile_hash_lookup := ENTRY_TRIPLET_SIZE * h.movie_count
  let bulkfiles_by_name := bulkfile_hash_lookup + ENTRY_PAIR_SIZE * h.part1_count
  let bulkfile_lookup_to_fileidx := bulkfiles_by_name + ENTRY_TRIPLET_SIZE * h.part1_count
  let file_pairs := bulkfile_lookup_to_fileidx + 4 * h.part2_count
  let another_hash_table := file_pairs + FILE_PAIR_SIZE * h.music_file_count
  let big_hashes := another_hash_table + ENTRY_TRIPLET_SIZE * h.another_hash_table_size
  let big_files := big_hashes + BIG_HASH_ENTRY_SIZE * h.folder_count
  let folder_hash_lookup :=
    big_files + BIG_FILE_ENTRY_SIZE * ((h.file_count1 + h.file_count2) % 2 ^ 32)
  let trees := folder_hash_lookup + ENTRY_PAIR_SIZE * h.hash_folder_count
  let sub_files1 := trees + TREE_ENTRY_SIZE * h.tree_count
  let sub_files2 := sub_files1 + FILE_ENTRY_SIZE * h.sub_files1_count
  let folder_to_big_hash := sub_files2 + FILE_ENTRY_SIZE * h.sub_files2_count
  let file_lookup_buckets := folder_to_big_hash + ENTRY_PAIR_SIZE * h.folder_count
  match sliceRead buffer file_lookup_buckets HASH_BUCKET_SIZE with
  | .error .panicOOB => .error (.Panic "slice index starts out of range")
  | .error .scrollShort => .error (.InternalError "scroll read out of bounds")
  | .ok bucketBytes =>
    let first_hash_bucket := decodeHashBucket bucketBytes
    let file_lookup :=
      file_lookup_buckets + HASH_BUCKET_SIZE * (first_hash_bucket.num_entries + 1)
    let numbers := file_lookup + ENTRY_PAIR_SIZE * h.file_lookup_count
    .ok ({ bulkfile_hash_lookup, bulkfiles_by_name, bulkfile_lookup_to_fileidx,
           file_pairs, another_hash_table, big_hashes, big_files,
           folder_hash_lookup, trees, sub_files1, sub_files2,
           folder_to_big_hash, file_lookup_buckets, file_lookup, numbers },
          first_hash_bucket)

/-- The body of `DataArc::internal_new`, starting with the file cursor already past
the 8 magic bytes.  The three `read_exact` calls, the seeks, the
compressed-node check (an `unimplemented!()` panic in the source) and the
subtraction `file_size - NODE_HEADER_SIZE` (a u32-to-usize subtraction
that panics when `file_size < 0x44`) are modelled step by step. -/
def internal_new (data : List Nat) : Except ParseOutcome DataArc :=
  if 8 + ARC_HEADER_SIZE > data.length then
    .error (.InternalError "failed to fill whole buffer")
  else
    let header := decodeArcHeader (readBytes data 8 ARC_HEADER_SIZE)
    let nso := header.node_section_offset
    if nso + COMPRESSED_NODE_HEADER_SIZE > data.length then
      .error (.InternalError "failed to fill whole buffer")
    else
      let compressed := decodeCompressedNodeHeader (readBytes data nso COMPRESSED_NODE_HEADER_SIZE)
      if compressed.data_start < 0x100 then
        .error (.Panic "not implemented")
      else if nso + NODE_HEADER_SIZE > data.length then
        .error (.InternalError "failed to fill whole buffer")
      else
        let node_header := decodeNodeHeader (readBytes data nso NODE_HEADER_SIZE)
        if node_header.file_size < NODE_HEADER_SIZE then
          .error (.Panic "attempt to subtract with overflow")
        else if nso + NODE_HEADER_SIZE + (node_header.file_size - NODE_HEADER_SIZE) > data.length then
          .error (.InternalError "failed to fill whole buffer")
        else
          let buffer := readBytes data (nso + NODE_HEADER_SIZE) (node_header.file_size - NODE_HEADER_SIZE)
          match computeOffsets node_header buffer with
          | .error e => .error e
          | .ok (ofs, first_hash_bucket) =>
            .ok { fileData := data
                  cursor := nso + node_header.file_size
                  header, buffer, first_hash_bucket
                  bulkfile_hash_lookup := ofs.bulkfile_hash_lookup
                  bulkfiles_by_name := ofs.bulkfiles_by_name
                  bulkfile_lookup_to_fileidx := ofs.bulkfile_lookup_to_fileidx
                  file_pairs := ofs.file_pairs
                  another_hash_table := ofs.another_hash_table
                  big_hashes := ofs.big_hashes
                  big_files := ofs.big_files
                  folder_hash_lookup := ofs.folder_hash_lookup
                  trees := ofs.trees
                  sub_files1 := ofs.sub_files1
                  sub_files2 := ofs.sub_files2
                  folder_to_big_hash := ofs.folder_to_big_hash
                  file_lookup_buckets := ofs.file_lookup_buckets
                  file_lookup := ofs.file_lookup
                  numbers := ofs.numbers }

/-- The data.arc magic number. -/
def ARC_MAGIC : Nat := 0xabcdef9876543210

/-- The `DataArc::new` entry point: an 8-byte little-endian read that fails (file shorter
than 8 bytes) or mismatches the magic yields `NotDataArc`; only then does
`internal_new` run. -/
def DataArc.new (data : List Nat) : Except ParseOutcome DataArc :=
  if data.length < 8 then .error .NotDataArc
  else if leNat (data.take 8) ≠ ARC_MAGIC then .error .NotDataArc
  else internal_new data

/-- Modelled from the spec: the flag-decoding helper methods
`TreeEntry::redirect`, `TreeEntry::suboffset_index` (the method, a flags
test shadowing the field of the same name), `FileEntry::suboffset_redir`,
`FileEntry::suboffset_tree_index`, `FileEntry::suboffset_decompressed` and
`FileEntry::suboffset_compressed_zstd` are called from
`DataArc::get_file` but their definitions are not among the provided
sources, and the spec describes them only as flag tests selecting the
variants ("flags mark it as a redirect", "flags mark its suboffset_index
as directly usable", "flags mark it as a sub-offset redirect",
"already-decompressed", "the supported block-compression format") without
giving bit positions.  They are therefore kept abstract: `get_file` is
parameterised over this record of predicates.  `zstd_decompress` models
the external `zstd::block::decompress_to_buffer`, taking the compressed
bytes and the destination buffer and returning the number of bytes
written together with the buffer contents after the call. -/
structure ExternalFns where
  tree_redirect : Nat → Bool
  tree_suboffset_usable : Nat → Bool
  fe_suboffset_redir : FileEntry → Bool
  fe_suboffset_tree_index : FileEntry → Nat
  fe_suboffset_decompressed : FileEntry → Bool
  fe_suboffset_compressed_zstd : FileEntry → Bool
  zstd_decompress : List Nat → List Nat → Except String (Nat × List Nat)

/-- Model of `(&self.buffer[off..]).pread_with::<HashBucket>(0, LE)`, with the
slice panic kept as a panic and the scroll error mapped to
`InternalError`, as `get_file` maps it. -/
def preadHashBucket (buffer : List Nat) (off : Nat) : Except GetFileOutcome HashBucket :=
  match sliceRead buffer off HASH_BUCKET_SIZE with
  | .error .panicOOB => .error (.Panic "slice index starts out of range")
  | .error .scrollShort => .error (.InternalError "scroll read out of bounds")
  | .ok d => .ok (decodeHashBucket d)

/-- Model of `(&self.buffer[off..]).pread_with::<FileEntry>(0, LE)`. -/
def preadFileEntry (buffer : List Nat) (off : Nat) : Except GetFileOutcome FileEntry :=
  match sliceRead buffer off FILE_ENTRY_SIZE with
  | .error .panicOOB => .error (.Panic "slice index starts out of range")
  | .error .scrollShort => .error (.InternalError "scroll read out of bounds")
  | .ok d => .ok (decodeFileEntry d)

/-- Model of `(&self.buffer[off..]).pread_with::<BigFileEntry>(0, LE)`. -/
def preadBigFileEntry (buffer : List Nat) (off : Nat) : Except GetFileOutcome BigFileEntry :=
  match sliceRead buffer off BIG_FILE_ENTRY_SIZE with
  | .error .panicOOB => .error (.Panic "slice index starts out of range")
  | .error .scrollShort => .error (.InternalError "scroll read out of bounds")
  | .ok d => .ok (decodeBigFileEntry d)

/-- Model of `read_tree_entry(&self.buffer[off..])`: both the slice and the direct
byte indexing inside `read_tree_entry` panic when fewer than `0x28` bytes
remain. -/
def read_tree_entry_at (buffer : List Nat) (off : Nat) : Except GetFileOutcome TreeEntry :=
  if off + TREE_ENTRY_SIZE ≤ buffer.length then .ok (read_tree_entry (buffer.drop off))
  else .error (.Panic "index out of bounds")

/-- Model of `read_big_hash_entry(&self.buffer[off..])`, same panic behaviour. -/
def read_big_hash_entry_at (buffer : List Nat) (off : Nat) : Except GetFileOutcome BigHashEntry :=
  if off + BIG_HASH_ENTRY_SIZE ≤ buffer.length then .ok (read_big_hash_entry (buffer.drop off))
  else .error (.Panic "index out of bounds")

/-- The loop body of `DataArc::bucket_search`: starting at buffer offset
`start`, compare the `i`-th `EntryPair` against `hash`, with `fuel` tries
remaining.  `read_pair(&self.buffer[k..])` panics when fewer than 8 bytes
remain at `k`. -/
def bucket_search_loop (buffer : List Nat) (hash start : Nat) :
    Nat → Nat → Except GetFileOutcome EntryPair
  | _, 0 => .error .FileNotFound
  | i, fuel + 1 =>
    if start + ENTRY_PAIR_SIZE * i + ENTRY_PAIR_SIZE ≤ buffer.length then
      let pair := read_pair (buffer.drop (start + ENTRY_PAIR_SIZE * i))
      if pair.hash = hash then .ok pair
      else bucket_search_loop buffer hash start (i + 1) fuel
    else .error (.Panic "index out of bounds")

/-- The `DataArc::bucket_search` method: scan `self.first_hash_bucket.num_entries`
(the global bucket count) consecutive pairs starting at
`file_lookup + ENTRY_PAIR_SIZE * bucket.index`. -/
def bucket_search (arc : DataArc) (hash : Nat) (bucket : HashBucket) :
    Except GetFileOutcome EntryPair :=
  bucket_search_loop arc.buffer hash (arc.file_lookup + ENTRY_PAIR_SIZE * bucket.index)
    0 arc.first_hash_bucket.num_entries

/-- Written from the spec's words for comparison with `bucket_search`
(spec 4.4: "scan `count` consecutive `EntryPair` records starting at
`file_lookup + ENTRY_PAIR_SIZE × index`" where the resolved bucket gives
`(index, count)`): the scan is bounded by the bucket's own
`num_entries`, not by the global count. -/
def bucket_search_per_bucket_count (arc : DataArc) (hash : Nat) (bucket : HashBucket) :
    Except GetFileOutcome EntryPair :=
  bucket_search_loop arc.buffer hash (arc.file_lookup + ENTRY_PAIR_SIZE * bucket.index)
    0 bucket.num_entries

/-- The hash-to-entry lookup prefix of `get_file` (`src/lib.rs` lines
158-162): reduce the hash to a bucket id modulo the global bucket count
(a u64 `%` that panics on a zero divisor), read the bucket record one
sentinel past `file_lookup_buckets`, and scan it. -/
def lookup_entry (arc : DataArc) (hash : Nat) : Except GetFileOutcome EntryPair :=
  let num_buckets := arc.first_hash_bucket.num_entries
  if num_buckets = 0 then
    .error (.Panic "attempt to calculate the remainder with a divisor of zero")
  else
    match preadHashBucket arc.buffer
        (arc.file_lookup_buckets + HASH_BUCKET_SIZE * (hash % num_buckets + 1)) with
    | .error e => .error e
    | .ok bucket => bucket_search arc hash bucket

/-- The resolution of the effective sub-offset index (`src/lib.rs` lines
170-180): the tree entry's own index when its flags say so, otherwise
`tree.ext.meta`, bumped by the redirect index when the `FileEntry` read at
`tree.ext.meta` is a sub-offset redirect. -/
def resolve_suboffset_index (ext : ExternalFns) (arc : DataArc) (tree : TreeEntry) :
    Except GetFileOutcome Nat :=
  if ext.tree_suboffset_usable tree.flags then .ok tree.suboffset_index
  else
    match preadFileEntry arc.buffer (arc.sub_files1 + FILE_ENTRY_SIZE * tree.ext.meta) with
    | .error e => .error e
    | .ok file_entry =>
      if ext.fe_suboffset_redir file_entry then
        .ok (tree.ext.meta + ext.fe_suboffset_tree_index file_entry)
      else .ok tree.ext.meta

/-- The pure part of `DataArc::get_file` (`src/lib.rs` lines 158-194):
everything up to and including the compression-flag checks, yielding the
resolved `FileEntry` and `BigFileEntry`.  It reads only the metadata
buffer, never the file handle. -/
def get_file_core (ext : ExternalFns) (arc : DataArc) (name : List Nat) :
    Except GetFileOutcome (FileEntry × BigFileEntry) :=
  let hash := hash40 name
  match lookup_entry arc hash with
  | .error e => .error e
  | .ok entry =>
    match read_tree_entry_at arc.buffer (arc.trees + TREE_ENTRY_SIZE * entry.meta) with
    | .error e => .error e
    | .ok tree =>
      if ext.tree_redirect tree.flags then .error (.Panic "not implemented")
      else
        match resolve_suboffset_index ext arc tree with
        | .error e => .error e
        | .ok suboffset_index =>
          match preadFileEntry arc.buffer (arc.sub_files1 + FILE_ENTRY_SIZE * suboffset_index) with
          | .error e => .error e
          | .ok sub_file =>
            match read_big_hash_entry_at arc.buffer
                (arc.big_hashes + BIG_HASH_ENTRY_SIZE * tree.path.meta) with
            | .error e => .error e
            | .ok big_hash =>
              match preadBigFileEntry arc.buffer
                  (arc.big_files + BIG_FILE_ENTRY_SIZE * big_hash.path.meta) with
              | .error e => .error e
              | .ok big_file =>
                if ext.fe_suboffset_decompressed sub_file then .error (.Panic "not implemented")
                else if ¬ ext.fe_suboffset_compressed_zstd sub_file then
                  .error (.InternalError "Unknown compression")
                else .ok (sub_file, big_file)

/-- The `DataArc::get_file` method.  After the pure resolution, seek the file handle
to `file_section_offset + big_file.offset + sub_file.offset * 4`, read
exactly `comp_size` bytes, decompress into a fresh buffer of
`decomp_size` zeros, and reject a decompressed-size mismatch.  The second
component of the result is the accessor as the call leaves it; only the
file cursor ever changes. -/
def get_file (ext : ExternalFns) (arc : DataArc) (name : List Nat) :
    Except GetFileOutcome (List Nat) × DataArc :=
  match get_file_core ext arc name with
  | .error e => (.error e, arc)
  | .ok (sub_file, big_file) =>
    let pos := arc.header.file_section_offset + big_file.offset + sub_file.offset * 4
    if pos + sub_file.comp_size ≤ arc.fileData.length then
      let buffer_comp := readBytes arc.fileData pos sub_file.comp_size
      let arc2 := { arc with cursor := pos + sub_file.comp_size }
      match ext.zstd_decompress buffer_comp (List.replicate sub_file.decomp_size 0) with
      | .error _ => (.error (.InternalError "zstd decompression error"), arc2)
      | .ok (bytes_copied, buffer_decomp) =>
        if bytes_copied = sub_file.decomp_size then (.ok buffer_decomp, arc2)
        else (.error (.InternalError "Mismatch in expected and actual decompressed size"), arc2)
    else (.error (.InternalError "failed to fill whole buffer"), { arc with cursor := pos })

instance {ε : Type u} {α : Type v} [DecidableEq ε] [DecidableEq α] :
    DecidableEq (Except ε α) := fun x y =>
  match x, y with
  | .error a, .error b =>
    if h : a = b then .isTrue (by rw [h]) else .isFalse (by intro hc; cases hc; exact h rfl)
  | .ok a, .ok b =>
    if h : a = b then .isTrue (by rw [h]) else .isFalse (by intro hc; cases hc; exact h rfl)
  | .error _, .ok _ => .isFalse (by intro hc; cases hc)
  | .ok _, .error _ => .isFalse (by intro hc; cases hc)

/-! Concrete fixture archives, used to witness the theorems below on
fully evaluated inputs. -/

/-- The four little-endian bytes of a u32 value. -/
def u32le (n : Nat) : List Nat :=
  [n % 256, n / 256 % 256, n / 2 ^ 16 % 256, n / 2 ^ 24 % 256]

/-- The eight little-endian bytes of a u64 value. -/
def u64le (n : Nat) : List Nat := u32le (n % 2 ^ 32) ++ u32le (n / 2 ^ 32)

/-- Fixture `ArcHeader`: node section at 0x30, file section at 0x130. -/
def exArcHeaderBytes : List Nat :=
  u64le 0 ++ u64le 0x130 ++ u64le 0 ++ u64le 0x30 ++ u64le 0

/-- Fixture `NodeHeader`: metadata blob of 0x100 bytes, one folder, one
file, one tree entry, one sub-file, one lookup entry, everything else
zero. -/
def exNodeHeaderBytes : List Nat :=
  u32le 0x100 ++ u32le 1 ++ u32le 1 ++ u32le 1 ++
  u32le 1 ++ u32le 1 ++ u32le 0 ++ u32le 0 ++
  u32le 0 ++ u32le 0 ++ u32le 0 ++ u32le 0 ++
  [0, 0, 0, 0] ++
  u32le 0 ++ u32le 0 ++ u32le 0 ++ u32le 0

/-- Fixture metadata payload (0xBC bytes).  Section offsets for the
fixture header: big_hashes = 0, big_files = 0x34, trees = 0x50,
sub_files1 = 0x78, folder_to_big_hash = 0x88, file_lookup_buckets = 0x90,
file_lookup = 0xA0, numbers = 0xA8.  The single real hash bucket and the
single lookup pair are parameters so fixtures can vary them. -/
def exBuffer (bucket1 entry0 : List Nat) : List Nat :=
  List.replicate 0x34 0 ++
  List.replicate 0x1c 0 ++
  List.replicate 0x28 0 ++
  (u32le 0 ++ u32le 4 ++ u32le 4 ++ u32le 0) ++
  List.replicate 8 0 ++
  (u32le 0 ++ u32le 1) ++
  bucket1 ++
  entry0 ++
  List.replicate 8 0 ++
  List.replicate 12 0

/-- A complete well-formed fixture archive (308 bytes): the lookup pair
has hash 0 (the `hash40` of the empty path) and meta 0, and 4 bytes of
stand-in compressed data live at the file section. -/
def exFileGood : List Nat :=
  u64le ARC_MAGIC ++ exArcHeaderBytes ++ exNodeHeaderBytes ++
  exBuffer (u32le 0 ++ u32le 1) (List.replicate 8 0) ++ [1, 2, 3, 4]

/-- Fixture whose real bucket points its scan start far past the buffer
(index 0x1000) while the only stored pair has hash 5. -/
def exFileOOB : List Nat :=
  u64le ARC_MAGIC ++ exArcHeaderBytes ++ exNodeHeaderBytes ++
  exBuffer (u32le 0x1000 ++ u32le 1) ([5, 0, 0, 0, 0, 0, 0, 0]) ++ [1, 2, 3, 4]

/-- Fixture whose real bucket carries its own `num_entries = 0` while the
global count is 1 and the stored pair at its scan start has hash 0. -/
def exFileZeroCount : List Nat :=
  u64le ARC_MAGIC ++ exArcHeaderBytes ++ exNodeHeaderBytes ++
  exBuffer (u32le 0 ++ u32le 0) (List.replicate 8 0) ++ [1, 2, 3, 4]

/-- Fixture whose node section starts with a `CompressedNodeHeader`
signature: the first u32 at the node section (0) is below 0x100. -/
def exFileCompressed : List Nat :=
  u64le ARC_MAGIC ++ exArcHeaderBytes ++ List.replicate 0x10 0

/-- Fixture with `movie_count = 1` and all other counts zero: the
bulkfile-hash-lookup section then starts at offset 0xc, not 0. -/
def exFileMovie : List Nat :=
  u64le ARC_MAGIC ++ exArcHeaderBytes ++
  (u32le 0x100 ++ u32le 0 ++ u32le 0 ++ u32le 0 ++
   u32le 0 ++ u32le 0 ++ u32le 0 ++ u32le 0 ++
   u32le 0 ++ u32le 0 ++ u32le 0 ++ u32le 0 ++
   [0, 0, 0, 0] ++
   u32le 1 ++ u32le 0 ++ u32le 0 ++ u32le 0) ++
  List.replicate 0xbc 0

/-- A placeholder accessor for the impossible error branches of the
fixture extractions. -/
def dummyArc : DataArc :=
  { fileData := [], cursor := 0, header := decodeArcHeader [], buffer := []
    first_hash_bucket := ⟨0, 0⟩
    bulkfile_hash_lookup := 0, bulkfiles_by_name := 0
    bulkfile_lookup_to_fileidx := 0, file_pairs := 0, another_hash_table := 0
    big_hashes := 0, big_files := 0, folder_hash_lookup := 0, trees := 0
    sub_files1 := 0, sub_files2 := 0, folder_to_big_hash := 0
    file_lookup_buckets := 0, file_lookup := 0, numbers := 0 }

def exArcGood : DataArc :=
  match DataArc.new exFileGood with
  | .ok a => a
  | .error _ => dummyArc

def exArcOOB : DataArc :=
  match DataArc.new exFileOOB with
  | .ok a => a
  | .error _ => dummyArc

def exArcZeroCount : DataArc :=
  match DataArc.new exFileZeroCount with
  | .ok a => a
  | .error _ => dummyArc

def exArcMovie : DataArc :=
  match DataArc.new exFileMovie with
  | .ok a => a
  | .error _ => dummyArc

/-- A concrete instantiation of the abstract flag predicates and codec
for the fixtures: no redirects, the tree's own sub-offset index is
usable, data is zstd-compressed, and the codec reports having filled the
whole destination buffer. -/
def extEx : ExternalFns :=
  { tree_redirect := fun _ => false
    tree_suboffset_usable := fun _ => true
    fe_suboffset_redir := fun _ => false
    fe_suboffset_tree_index := fun _ => 0
    fe_suboffset_decompressed := fun _ => false
    fe_suboffset_compressed_zstd := fun _ => true
    zstd_decompress := fun _ buf => .ok (buf.length, buf) }

/-- True iff construction returned the `InternalError` variant of
`ParseError`. -/
def newIsInternalError (data : List Nat) : Bool :=
  match DataArc.new data with
  | .error (.InternalError _) => true
  | _ => false

/-- The fixture metadata payload used by the well-formed archive. -/
def exBufferGood : List Nat := exBuffer (u32le 0 ++ u32le 1) (List.replicate 8 0)

/-- The fixture `NodeHeader`, parsed from its bytes. -/
def exNodeHeaderGood : NodeHeader := decodeNodeHeader exNodeHeaderBytes

def exOffsetsGood : SectionOffsets :=
  match computeOffsets exNodeHeaderGood exBufferGood with
  | .ok (o, _) => o
  | .error _ => ⟨0, 0, 0, 0, 0, 0, 0, 0, 0, 0, 0, 0, 0, 0, 0⟩

def exBucketGood : HashBucket :=
  match computeOffsets exNodeHeaderGood exBufferGood with
  | .ok (_, b) => b
  | .error _ => ⟨0, 0⟩

/-- The tree entry the fixture lookup resolves (all-zero record at
buffer offset 0x50). -/
def exTreeGood : TreeEntry := read_tree_entry (exArcGood.buffer.drop 0x50)

/-- The resolved fixture `FileEntry` (buffer offset 0x78). -/
def exSubFileGood : FileEntry :=
  decodeFileEntry (readBytes exArcGood.buffer 0x78 FILE_ENTRY_SIZE)

/-- The fixture `BigHashEntry` (buffer offset 0). -/
def exBigHashGood : BigHashEntry := read_big_hash_entry exArcGood.buffer

/-- The fixture `BigFileEntry` (buffer offset 0x34). -/
def exBigFileGood : BigFileEntry :=
  decodeBigFileEntry (readBytes exArcGood.buffer 0x34 BIG_FILE_ENTRY_SIZE)

/-- The fixture accessor as the successful `get_file` call leaves it. -/
def exArcGoodAfter : DataArc := (get_file extEx exArcGood []).2

set_option maxRecDepth 100000

/-! Helper lemmas. -/

theorem byteAt_lt_256 : ∀ (d : List Nat) (i : Nat), (∀ b ∈ d, b < 256) → byteAt d i < 256
  | [], _, _ => by simp [byteAt]
  | b :: _, 0, h => by simpa [byteAt] using h b (by simp)
  | _ :: t, i + 1, h => by
    simpa [byteAt] using byteAt_lt_256 t i (fun x hx => h x (by simp [hx]))

theorem crc32shift_lt (c : Nat) (h : c < 2 ^ 32) : crc32shift c < 2 ^ 32 := by
  unfold crc32shift
  split
  · exact Nat.xor_lt_two_pow (by omega) (by norm_num)
  · omega

theorem crc32update_lt (c b : Nat) (hc : c < 2 ^ 32) (hb : b < 2 ^ 32) :
    crc32update c b < 2 ^ 32 := by
  unfold crc32update
  have h0 : c ^^^ b < 2 ^ 32 := Nat.xor_lt_two_pow hc hb
  exact crc32shift_lt _ (crc32shift_lt _ (crc32shift_lt _ (crc32shift_lt _
    (crc32shift_lt _ (crc32shift_lt _ (crc32shift_lt _ (crc32shift_lt _ h0)))))))

theorem crc32foldl_lt : ∀ (l : List Nat) (acc : Nat), acc < 2 ^ 32 →
    (∀ b ∈ l, b < 256) → l.foldl crc32update acc < 2 ^ 32
  | [], _, hacc, _ => hacc
  | b :: t, acc, hacc, h => by
    simp only [List.foldl_cons]
    refine crc32foldl_lt t _ (crc32update_lt _ _ hacc ?_) (fun x hx => h x (by simp [hx]))
    have := h b (by simp)
    omega

theorem crc32_lt_two_pow_32 (l : List Nat) (h : ∀ b ∈ l, b < 256) : crc32 l < 2 ^ 32 :=
  Nat.xor_lt_two_pow (crc32foldl_lt l _ (by norm_num) h) (by norm_num)

theorem leNat_lt : ∀ (l : List Nat), (∀ b ∈ l, b < 256) → leNat l < 256 ^ l.length
  | [], _ => by simp [leNat]
  | b :: t, h => by
    have hb := h b (by simp)
    have ht := leNat_lt t (fun x hx => h x (by simp [hx]))
    simp only [leNat, List.length_cons, pow_succ]
    have h1 : b + 256 * leNat t < 256 * (leNat t + 1) := by omega
    have h2 : 256 * (leNat t + 1) ≤ 256 * 256 ^ t.length := by
      exact Nat.mul_le_mul_left _ ht
    omega

theorem byteAt_drop : ∀ (d : List Nat) (n i : Nat), byteAt (d.drop n) i = byteAt d (n + i)
  | _, 0, _ => by simp
  | [], _ + 1, _ => by simp [byteAt]
  | _ :: t, n + 1, i => by
    simp only [List.drop_succ_cons]
    rw [byteAt_drop t n i]
    have he : n + 1 + i = (n + i) + 1 := by omega
    rw [he]
    rfl

theorem leNat_take5 (d : List Nat) :
    leNat [byteAt d 0, byteAt d 1, byteAt d 2, byteAt d 3, byteAt d 4, 0, 0, 0] =
      leNat (d.take 5) := by
  match d with
  | [] => simp [byteAt, leNat]
  | [b0] => simp [byteAt, leNat]
  | [b0, b1] => simp [byteAt, leNat]
  | [b0, b1, b2] => simp [byteAt, leNat]
  | [b0, b1, b2, b3] => simp [byteAt, leNat]
  | b0 :: b1 :: b2 :: b3 :: b4 :: rest => simp [byteAt, leNat]

theorem leNat_take3 (d : List Nat) :
    leNat [byteAt d 0, byteAt d 1, byteAt d 2, 0] = leNat (d.take 3) := by
  match d with
  | [] => simp [byteAt, leNat]
  | [b0] => simp [byteAt, leNat]
  | [b0, b1] => simp [byteAt, leNat]
  | b0 :: b1 :: b2 :: rest => simp [byteAt, leNat]

theorem read_pair_take (d : List Nat) :
    (read_pair d).hash = leNat (d.take 5) ∧
      (read_pair d).meta = leNat ((d.drop 5).take 3) := by
  constructor
  · simpa [read_pair] using leNat_take5 d
  · rw [← leNat_take3 (d.drop 5), byteAt_drop, byteAt_drop, byteAt_drop]
    simp [read_pair]


theorem sliceRead_ok (data : List Nat) (off n : Nat) (bytes : List Nat)
    (h : sliceRead data off n = .ok bytes) :
    bytes = readBytes data off n ∧ off + n ≤ data.length := by
  unfold sliceRead at h
  split at h
  · cases h
  · split at h
    · cases h
    · cases h
      refine ⟨rfl, by omega⟩

/-- C4: for every path (a list of UTF-8 bytes), `hash40` equals the IEEE
CRC32 of the bytes or-ed with the 8-bit-truncated length shifted to bit
32; the value fits in the low 40 bits (the high 24 bits of the 64-bit
value are zero, expressed as `>>> 40 = 0`); and `hash40` of the empty
path is the length-0 tag combined with the CRC32 of the empty byte
string, which evaluates to 0.  Determinism/purity is inherent: `hash40`
is a Lean function of its argument alone. -/
theorem c4_hash40_characterisation (name : List Nat) (h256 : ∀ b ∈ name, b < 256) :
    hash40 name = crc32 name ||| ((name.length &&& 0xFF) <<< 32) ∧
    hash40 name < 2 ^ 40 ∧
    hash40 name >>> 40 = 0 ∧
    hash40 [] = crc32 [] ||| ((0 &&& 0xFF) <<< 32) ∧
    hash40 [] = 0 := by
  have hcrc : crc32 name < 2 ^ 32 := crc32_lt_two_pow_32 name h256
  have h1 : crc32 name < 2 ^ 40 := lt_of_lt_of_le hcrc (by norm_num)
  have h2 : (name.length &&& 0xFF) <<< 32 < 2 ^ 40 := by
    have ha : name.length &&& 0xFF < 2 ^ 8 := Nat.and_lt_two_pow _ (by norm_num)
    rw [Nat.shiftLeft_eq]
    have hb : (name.length &&& 0xFF) * 2 ^ 32 ≤ 255 * 2 ^ 32 :=
      Nat.mul_le_mul_right _ (by omega)
    calc (name.length &&& 0xFF) * 2 ^ 32 ≤ 255 * 2 ^ 32 := hb
      _ < 2 ^ 40 := by norm_num
  have hlt : hash40 name < 2 ^ 40 := Nat.or_lt_two_pow h1 h2
  refine ⟨rfl, hlt, ?_, rfl, by decide⟩
  rw [Nat.shiftRight_eq_div_pow]
  exact Nat.div_eq_of_lt hlt

/-- Witness: `c4_hash40_characterisation` evaluated on the bytes of
"abc". -/
theorem c4_hash40_characterisation_witness :
    hash40 [97, 98, 99] = crc32 [97, 98, 99] ||| (([97, 98, 99].length &&& 0xFF) <<< 32) ∧
    hash40 [97, 98, 99] < 2 ^ 40 ∧
    hash40 [97, 98, 99] >>> 40 = 0 ∧
    hash40 [] = crc32 [] ||| ((0 &&& 0xFF) <<< 32) ∧
    hash40 [] = 0 :=
  c4_hash40_characterisation [97, 98, 99] (by decide)

/-- C9: decoding a packed `EntryPair` (via `read_pair`) yields a hash
equal to the little-endian integer of the first 5 bytes (the zero padding
into an 8-byte buffer adds nothing) and a meta equal to the little-endian
integer of the following 3 bytes (zero-padded into 4); the same holds for
`read_triplet`, whose `meta2` is the plain u32 at offset 8; the
pair-shaped fields of `TreeEntry` and `BigHashEntry` are each decoded by
`read_pair` on the corresponding 8-byte sub-span.  For byte-valued input
the hash always fits in 40 bits and the meta in 24 bits, so the decode is
never a naive 8-byte integer read of the whole record. -/
theorem c9_packed_decode :
    (∀ d : List Nat,
      (read_pair d).hash = leNat (d.take 5) ∧
      (read_pair d).meta = leNat ((d.drop 5).take 3)) ∧
    (∀ d : List Nat, (∀ b ∈ d, b < 256) →
      (read_pair d).hash < 2 ^ 40 ∧ (read_pair d).meta < 2 ^ 24) ∧
    (∀ d : List Nat,
      (read_triplet d).hash = leNat (d.take 5) ∧
      (read_triplet d).meta = leNat ((d.drop 5).take 3) ∧
      (read_triplet d).meta2 = leNat ((d.drop 8).take 4)) ∧
    (∀ d : List Nat,
      (read_tree_entry d).path = read_pair d ∧
      (read_tree_entry d).ext = read_pair (d.drop 0x08) ∧
      (read_tree_entry d).folder = read_pair (d.drop 0x10) ∧
      (read_tree_entry d).file = read_pair (d.drop 0x18) ∧
      (read_big_hash_entry d).path = read_pair d ∧
      (read_big_hash_entry d).folder = read_pair (d.drop 0x08) ∧
      (read_big_hash_entry d).parent = read_pair (d.drop 0x10) ∧
      (read_big_hash_entry d).hash4 = read_pair (d.drop 0x18)) := by
  refine ⟨read_pair_take, ?_, ?_, ?_⟩
  · intro d h256
    obtain ⟨hh, hm⟩ := read_pair_take d
    constructor
    · rw [hh]
      have := leNat_lt (d.take 5) (fun b hb => h256 b (List.take_subset _ _ hb))
      have hlen : (256 : Nat) ^ (d.take 5).length ≤ 256 ^ 5 :=
        Nat.pow_le_pow_right (by norm_num) (by simp)
      calc leNat (d.take 5) < 256 ^ (d.take 5).length := this
        _ ≤ 256 ^ 5 := hlen
        _ = 2 ^ 40 := by norm_num
    · rw [hm]
      have := leNat_lt ((d.drop 5).take 3)
        (fun b hb => h256 b (List.drop_subset 5 d (List.take_subset _ _ hb)))
      have hlen : (256 : Nat) ^ ((d.drop 5).take 3).length ≤ 256 ^ 3 :=
        Nat.pow_le_pow_right (by norm_num) (by simp)
      calc leNat ((d.drop 5).take 3) < 256 ^ ((d.drop 5).take 3).length := this
        _ ≤ 256 ^ 3 := hlen
        _ = 2 ^ 24 := by norm_num
  · intro d
    obtain ⟨hh, hm⟩ := read_pair_take d
    exact ⟨hh, hm, rfl⟩
  · intro d
    exact ⟨rfl, rfl, rfl, rfl, rfl, rfl, rfl, rfl⟩

/-- Witness: `c9_packed_decode` evaluated on the 12 bytes 1..12: the hash
is the little-endian value of bytes 1..5, the meta of bytes 6..8. -/
theorem c9_packed_decode_witness :
    ((read_pair [1, 2, 3, 4, 5, 6, 7, 8]).hash = leNat [1, 2, 3, 4, 5] ∧
     (read_pair [1, 2, 3, 4, 5, 6, 7, 8]).meta = leNat [6, 7, 8]) ∧
    ((read_pair [1, 2, 3, 4, 5, 6, 7, 8]).hash < 2 ^ 40 ∧
     (read_pair [1, 2, 3, 4, 5, 6, 7, 8]).meta < 2 ^ 24) ∧
    (read_triplet [1, 2, 3, 4, 5, 6, 7, 8, 9, 10, 11, 12]).meta2 = leNat [9, 10, 11, 12] := by
  refine ⟨?_, c9_packed_decode.2.1 [1, 2, 3, 4, 5, 6, 7, 8] (by decide), ?_⟩
  · have := c9_packed_decode.1 [1, 2, 3, 4, 5, 6, 7, 8]
    simpa using this
  · have := (c9_packed_decode.2.2.1 [1, 2, 3, 4, 5, 6, 7, 8, 9, 10, 11, 12]).2.2
    simpa using this

/-- C7: every input whose first 8 bytes are not the little-endian magic
`0xabcdef9876543210` — including inputs shorter than 8 bytes — makes
`DataArc::new` return `NotDataArc`, and nothing else: in particular no
internal error and no panic outcome, so internal errors can only arise
after the magic check has passed. -/
theorem c7_not_data_arc (data : List Nat)
    (h : data.length < 8 ∨ leNat (data.take 8) ≠ ARC_MAGIC) :
    DataArc.new data = .error .NotDataArc := by
  unfold DataArc.new
  rcases h with h | h
  · simp [h]
  · by_cases hl : data.length < 8
    · simp [hl]
    · simp [hl, h]

/-- Witness: `c7_not_data_arc` on the empty file (shorter than 8 bytes)
and on an 8-byte file of zeros (wrong magic). -/
theorem c7_not_data_arc_witness :
    DataArc.new [] = .error .NotDataArc ∧
    DataArc.new [0, 0, 0, 0, 0, 0, 0, 0] = .error .NotDataArc :=
  ⟨c7_not_data_arc [] (Or.inl (by decide)),
   c7_not_data_arc [0, 0, 0, 0, 0, 0, 0, 0] (Or.inr (by decide))⟩


/-- C8 counterexample: on a concrete archive whose node section starts
with a `CompressedNodeHeader` whose `data_start` (0) is below 0x100,
construction does not return any `InternalError`: it hits the
`unimplemented!()` panic. -/
theorem c8_counterexample :
    DataArc.new exFileCompressed = .error (.Panic "not implemented") ∧
    newIsInternalError exFileCompressed = false := by
  constructor <;> decide

/-- C8 (amended): for every archive that passes the magic check and whose
node section begins with a `CompressedNodeHeader` whose `data_start` is
below 0x100, construction fails loudly at exactly that point — but via
the `unimplemented!()` panic, not via a returned "unsupported format
variant" `InternalError`. -/
theorem c8_compressed_node_panics (data : List Nat)
    (hlen : ¬ data.length < 8)
    (hmagic : leNat (data.take 8) = ARC_MAGIC)
    (hhdr : ¬ 8 + ARC_HEADER_SIZE > data.length)
    (hcn : ¬ (decodeArcHeader (readBytes data 8 ARC_HEADER_SIZE)).node_section_offset +
      COMPRESSED_NODE_HEADER_SIZE > data.length)
    (hds : (decodeCompressedNodeHeader (readBytes data
      (decodeArcHeader (readBytes data 8 ARC_HEADER_SIZE)).node_section_offset
      COMPRESSED_NODE_HEADER_SIZE)).data_start < 0x100) :
    DataArc.new data = .error (.Panic "not implemented") := by
  unfold DataArc.new internal_new
  simp [hlen, hmagic, hhdr, hcn, hds]

/-- Witness: `c8_compressed_node_panics` on the concrete compressed-node
fixture. -/
theorem c8_compressed_node_panics_witness :
    DataArc.new exFileCompressed = .error (.Panic "not implemented") :=
  c8_compressed_node_panics exFileCompressed (by decide) (by decide) (by decide)
    (by decide) (by decide)

/-- C1 (amended): whenever the construction-time offset computation
succeeds, the fifteen section offsets form one running sum in the fixed
order, each advanced by record size times the `NodeHeader` count, with
`file_lookup` advanced by `HASH_BUCKET_SIZE * (num_entries + 1)` where
`num_entries` comes from the first `HashBucket` decoded at the
just-computed `file_lookup_buckets` offset.  The sum starts at 0, but its
first step already adds `ENTRY_TRIPLET_SIZE * movie_count` (the
bulkfile-category-info table precedes), so `bulkfile_hash_lookup` sits at
`ENTRY_TRIPLET_SIZE * movie_count`, not at offset 0; consecutive offsets
are non-decreasing (strictly increasing only when the counts are
positive). -/
theorem c1_section_offsets (h : NodeHeader) (buffer : List Nat)
    (ofs : SectionOffsets) (fb : HashBucket)
    (hwrap : h.file_count1 + h.file_count2 < 2 ^ 32)
    (hco : computeOffsets h buffer = .ok (ofs, fb)) :
    (ofs.bulkfile_hash_lookup = ENTRY_TRIPLET_SIZE * h.movie_count ∧
     ofs.bulkfiles_by_name = ofs.bulkfile_hash_lookup + ENTRY_PAIR_SIZE * h.part1_count ∧
     ofs.bulkfile_lookup_to_fileidx = ofs.bulkfiles_by_name + ENTRY_TRIPLET_SIZE * h.part1_count ∧
     ofs.file_pairs = ofs.bulkfile_lookup_to_fileidx + 4 * h.part2_count ∧
     ofs.another_hash_table = ofs.file_pairs + FILE_PAIR_SIZE * h.music_file_count ∧
     ofs.big_hashes = ofs.another_hash_table + ENTRY_TRIPLET_SIZE * h.another_hash_table_size ∧
     ofs.big_files = ofs.big_hashes + BIG_HASH_ENTRY_SIZE * h.folder_count ∧
     ofs.folder_hash_lookup = ofs.big_files + BIG_FILE_ENTRY_SIZE * (h.file_count1 + h.file_count2) ∧
     ofs.trees = ofs.folder_hash_lookup + ENTRY_PAIR_SIZE * h.hash_folder_count ∧
     ofs.sub_files1 = ofs.trees + TREE_ENTRY_SIZE * h.tree_count ∧
     ofs.sub_files2 = ofs.sub_files1 + FILE_ENTRY_SIZE * h.sub_files1_count ∧
     ofs.folder_to_big_hash = ofs.sub_files2 + FILE_ENTRY_SIZE * h.sub_files2_count ∧
     ofs.file_lookup_buckets = ofs.folder_to_big_hash + ENTRY_PAIR_SIZE * h.folder_count) ∧
    (ofs.file_lookup_buckets + HASH_BUCKET_SIZE ≤ buffer.length ∧
     fb = decodeHashBucket (readBytes buffer ofs.file_lookup_buckets HASH_BUCKET_SIZE) ∧
     ofs.file_lookup = ofs.file_lookup_buckets + HASH_BUCKET_SIZE * (fb.num_entries + 1) ∧
     ofs.numbers = ofs.file_lookup + ENTRY_PAIR_SIZE * h.file_lookup_count) ∧
    (ofs.bulkfile_hash_lookup ≤ ofs.bulkfiles_by_name ∧
     ofs.bulkfiles_by_name ≤ ofs.bulkfile_lookup_to_fileidx ∧
     ofs.bulkfile_lookup_to_fileidx ≤ ofs.file_pairs ∧
     ofs.file_pairs ≤ ofs.another_hash_table ∧
     ofs.another_hash_table ≤ ofs.big_hashes ∧
     ofs.big_hashes ≤ ofs.big_files ∧
     ofs.big_files ≤ ofs.folder_hash_lookup ∧
     ofs.folder_hash_lookup ≤ ofs.trees ∧
     ofs.trees ≤ ofs.sub_files1 ∧
     ofs.sub_files1 ≤ ofs.sub_files2 ∧
     ofs.sub_files2 ≤ ofs.folder_to_big_hash ∧
     ofs.folder_to_big_hash ≤ ofs.file_lookup_buckets ∧
     ofs.file_lookup_buckets < ofs.file_lookup ∧
     ofs.file_lookup ≤ ofs.numbers) := by
  simp only [computeOffsets] at hco
  split at hco
  · cases hco
  · cases hco
  · rename_i bytes heq
    cases hco
    obtain ⟨hbytes, hle⟩ := sliceRead_ok _ _ _ _ heq
    subst hbytes
    refine ⟨⟨rfl, rfl, rfl, rfl, rfl, rfl, rfl, ?_, rfl, rfl, rfl, rfl, rfl⟩,
      ⟨by simpa using hle, rfl, rfl, rfl⟩, ?_⟩
    · rw [Nat.mod_eq_of_lt hwrap]
    · simp only [ENTRY_TRIPLET_SIZE, ENTRY_PAIR_SIZE, FILE_PAIR_SIZE, BIG_HASH_ENTRY_SIZE,
        BIG_FILE_ENTRY_SIZE, TREE_ENTRY_SIZE, FILE_ENTRY_SIZE, HASH_BUCKET_SIZE]
      omega

/-- Every pair the scan loop returns matched the query hash exactly. -/
theorem bucket_search_loop_ok (buffer : List Nat) (hash start : Nat) :
    ∀ (fuel i : Nat) (p : EntryPair),
      bucket_search_loop buffer hash start i fuel = .ok p → p.hash = hash := by
  intro fuel
  induction fuel with
  | zero => intro i p h; simp [bucket_search_loop] at h
  | succ n ih =>
    intro i p h
    simp only [bucket_search_loop] at h
    split at h
    · by_cases hph : (read_pair (buffer.drop (start + ENTRY_PAIR_SIZE * i))).hash = hash
      · rw [if_pos hph] at h
        cases h
        exact hph
      · rw [if_neg hph] at h
        exact ih (i + 1) p h
    · cases h

/-- A returned pair is the first match: it sits at a scanned position and
every earlier scanned position mismatches. -/
theorem bucket_search_loop_first (buffer : List Nat) (hash start : Nat) :
    ∀ (fuel i : Nat) (p : EntryPair),
      bucket_search_loop buffer hash start i fuel = .ok p →
      ∃ j, j < fuel ∧
        p = read_pair (buffer.drop (start + ENTRY_PAIR_SIZE * (i + j))) ∧
        p.hash = hash ∧
        ∀ k, k < j →
          (read_pair (buffer.drop (start + ENTRY_PAIR_SIZE * (i + k)))).hash ≠ hash := by
  intro fuel
  induction fuel with
  | zero => intro i p h; simp [bucket_search_loop] at h
  | succ n ih =>
    intro i p h
    simp only [bucket_search_loop] at h
    split at h
    · by_cases hph : (read_pair (buffer.drop (start + ENTRY_PAIR_SIZE * i))).hash = hash
      · rw [if_pos hph] at h
        cases h
        exact ⟨0, by omega, by simp, hph, by omega⟩
      · rw [if_neg hph] at h
        obtain ⟨j, hj, hp, hph2, hmin⟩ := ih (i + 1) p h
        refine ⟨j + 1, by omega, ?_, hph2, ?_⟩
        · rw [show i + (j + 1) = i + 1 + j by omega]
          exact hp
        · intro k hk
          match k with
          | 0 => simpa using hph
          | k' + 1 =>
            rw [show i + (k' + 1) = i + 1 + k' by omega]
            exact hmin k' (by omega)
    · cases h

/-- When every scanned position is in bounds and mismatches, the loop
reports `FileNotFound`. -/
theorem bucket_search_loop_notfound (buffer : List Nat) (hash start : Nat) :
    ∀ (fuel i : Nat),
      (∀ j, j < fuel →
        start + ENTRY_PAIR_SIZE * (i + j) + ENTRY_PAIR_SIZE ≤ buffer.length ∧
        (read_pair (buffer.drop (start + ENTRY_PAIR_SIZE * (i + j)))).hash ≠ hash) →
      bucket_search_loop buffer hash start i fuel = .error .FileNotFound := by
  intro fuel
  induction fuel with
  | zero => intro i _; rfl
  | succ n ih =>
    intro i hall
    obtain ⟨hb0, hn0⟩ := hall 0 (by omega)
    simp only [Nat.add_zero] at hb0 hn0
    simp only [bucket_search_loop]
    rw [if_pos hb0, if_neg hn0]
    refine ih (i + 1) ?_
    intro j hj
    have := hall (j + 1) (by omega)
    rwa [show i + (j + 1) = i + 1 + j by omega] at this

/-- C2 (amended): for every query, `get_file`'s lookup stage computes the
bucket id as `hash40 name % num_buckets` with `num_buckets` the
`num_entries` of the construction-time first `HashBucket`, reads the
`HashBucket` one sentinel record past `file_lookup_buckets`
(`+ HASH_BUCKET_SIZE * (bucket_id + 1)`), and scans consecutive
`EntryPair` records starting at `file_lookup + ENTRY_PAIR_SIZE *
bucket.index`, comparing hashes for exact equality and returning the
first match — but the scan is bounded by the global
`first_hash_bucket.num_entries`, not by the resolved bucket's own count
as the claim states. -/
theorem c2_bucket_lookup (arc : DataArc) (name : List Nat) (bucket : HashBucket)
    (hnz : arc.first_hash_bucket.num_entries ≠ 0)
    (hbucket : preadHashBucket arc.buffer
      (arc.file_lookup_buckets +
        HASH_BUCKET_SIZE * (hash40 name % arc.first_hash_bucket.num_entries + 1)) = .ok bucket) :
    lookup_entry arc (hash40 name) =
      bucket_search_loop arc.buffer (hash40 name)
        (arc.file_lookup + ENTRY_PAIR_SIZE * bucket.index) 0
        arc.first_hash_bucket.num_entries ∧
    (∀ p, lookup_entry arc (hash40 name) = .ok p →
      ∃ j, j < arc.first_hash_bucket.num_entries ∧
        p = read_pair (arc.buffer.drop
          (arc.file_lookup + ENTRY_PAIR_SIZE * bucket.index + ENTRY_PAIR_SIZE * j)) ∧
        p.hash = hash40 name ∧
        ∀ k, k < j → (read_pair (arc.buffer.drop
          (arc.file_lookup + ENTRY_PAIR_SIZE * bucket.index + ENTRY_PAIR_SIZE * k))).hash ≠
            hash40 name) ∧
    ((∀ j, j < arc.first_hash_bucket.num_entries →
        arc.file_lookup + ENTRY_PAIR_SIZE * bucket.index + ENTRY_PAIR_SIZE * j +
            ENTRY_PAIR_SIZE ≤ arc.buffer.length ∧
        (read_pair (arc.buffer.drop
          (arc.file_lookup + ENTRY_PAIR_SIZE * bucket.index + ENTRY_PAIR_SIZE * j))).hash ≠
            hash40 name) →
      lookup_entry arc (hash40 name) = .error .FileNotFound) := by
  have hmain : lookup_entry arc (hash40 name) =
      bucket_search_loop arc.buffer (hash40 name)
        (arc.file_lookup + ENTRY_PAIR_SIZE * bucket.index) 0
        arc.first_hash_bucket.num_entries := by
    unfold lookup_entry
    rw [if_neg hnz, hbucket]
    rfl
  refine ⟨hmain, ?_, ?_⟩
  · intro p hp
    rw [hmain] at hp
    obtain ⟨j, hj, hpj, hph, hmin⟩ := bucket_search_loop_first arc.buffer (hash40 name) _ _ _ p hp
    refine ⟨j, hj, ?_, hph, ?_⟩
    · simpa [Nat.add_assoc] using hpj
    · intro k hk
      have := hmin k hk
      simpa [Nat.add_assoc] using this
  · intro hall
    rw [hmain]
    refine bucket_search_loop_notfound arc.buffer (hash40 name) _ _ _ ?_
    intro j hj
    have := hall j hj
    simpa [Nat.add_assoc] using this

/-- Witness: `c2_bucket_lookup` on the fixture archive and the empty
path; the resolved bucket is `(index 0, count 1)`. -/
theorem c2_bucket_lookup_witness :
    lookup_entry exArcGood (hash40 []) =
      bucket_search_loop exArcGood.buffer (hash40 [])
        (exArcGood.file_lookup + ENTRY_PAIR_SIZE * (⟨0, 1⟩ : HashBucket).index) 0
        exArcGood.first_hash_bucket.num_entries :=
  (c2_bucket_lookup exArcGood [] ⟨0, 1⟩ (by decide) (by decide)).1

/-- C2 counterexample: on a constructed archive whose resolved bucket
carries its own count 0, a scan of "exactly that bucket's own count of
records" would find nothing (as the per-bucket-count variant shows), yet
the code's global-count-bounded scan returns a pair. -/
theorem c2_counterexample :
    DataArc.new exFileZeroCount = .ok exArcZeroCount ∧
    preadHashBucket exArcZeroCount.buffer
      (exArcZeroCount.file_lookup_buckets +
        HASH_BUCKET_SIZE * (hash40 [] % exArcZeroCount.first_hash_bucket.num_entries + 1)) =
      .ok ⟨0, 0⟩ ∧
    bucket_search exArcZeroCount (hash40 []) ⟨0, 0⟩ = .ok ⟨0, 0⟩ ∧
    bucket_search_per_bucket_count exArcZeroCount (hash40 []) ⟨0, 0⟩ =
      .error .FileNotFound := by
  refine ⟨by decide, by decide, by decide, by decide⟩

/-- C6 (amended): whenever `bucket_search` returns an entry its hash
equals the queried hash exactly, and when every scanned position is in
bounds and mismatches it reports `FileNotFound` — but the scan, bounded
by the global count and started at the bucket's index, can also run past
the buffer and panic (an out-of-bounds read) instead of reporting
not-found. -/
theorem c6_exact_match_or_not_found :
    (∀ (arc : DataArc) (hash : Nat) (bucket : HashBucket) (p : EntryPair),
      bucket_search arc hash bucket = .ok p → p.hash = hash) ∧
    (∀ (arc : DataArc) (hash : Nat) (bucket : HashBucket),
      (∀ j, j < arc.first_hash_bucket.num_entries →
        arc.file_lookup + ENTRY_PAIR_SIZE * bucket.index + ENTRY_PAIR_SIZE * j +
            ENTRY_PAIR_SIZE ≤ arc.buffer.length ∧
        (read_pair (arc.buffer.drop
          (arc.file_lookup + ENTRY_PAIR_SIZE * bucket.index + ENTRY_PAIR_SIZE * j))).hash ≠
            hash) →
      bucket_search arc hash bucket = .error .FileNotFound) := by
  constructor
  · intro arc hash bucket p hp
    exact bucket_search_loop_ok arc.buffer hash _ _ _ p hp
  · intro arc hash bucket hall
    refine bucket_search_loop_notfound arc.buffer hash _ _ _ ?_
    intro j hj
    have := hall j hj
    simpa [Nat.add_assoc] using this

/-- Witness: `c6_exact_match_or_not_found` on the fixture archive: the
returned pair for the empty path carries exactly its hash, and the query
for path byte 97 (absent) reports `FileNotFound`. -/
theorem c6_exact_match_or_not_found_witness :
    (⟨0, 0⟩ : EntryPair).hash = hash40 [] ∧
    bucket_search exArcGood (hash40 [97]) ⟨0, 1⟩ = .error .FileNotFound := by
  constructor
  · exact c6_exact_match_or_not_found.1 exArcGood (hash40 []) ⟨0, 1⟩ ⟨0, 0⟩ (by decide)
  · exact c6_exact_match_or_not_found.2 exArcGood (hash40 [97]) ⟨0, 1⟩ (by decide)

/-- C6 counterexample: a constructed archive whose resolved bucket points
its scan start far past the buffer.  The query hash (`hash40 []` = 0) is
absent from the entry-pair table — the only stored pair has hash 5 —
yet the lookup panics with an out-of-bounds read instead of reporting
not-found. -/
theorem c6_counterexample :
    DataArc.new exFileOOB = .ok exArcOOB ∧
    (read_pair (exArcOOB.buffer.drop exArcOOB.file_lookup)).hash = 5 ∧
    hash40 [] = 0 ∧
    (get_file extEx exArcOOB []).1 = .error (.Panic "index out of bounds") := by
  refine ⟨by decide, by decide, by decide, by decide⟩





/-- Witness: `c1_section_offsets` on the fixture header and payload. -/
theorem c1_section_offsets_witness :
    exOffsetsGood.bulkfile_hash_lookup = ENTRY_TRIPLET_SIZE * exNodeHeaderGood.movie_count ∧
    exOffsetsGood.file_lookup =
      exOffsetsGood.file_lookup_buckets + HASH_BUCKET_SIZE * (exBucketGood.num_entries + 1) ∧
    exOffsetsGood.numbers = exOffsetsGood.file_lookup + ENTRY_PAIR_SIZE * exNodeHeaderGood.file_lookup_count := by
  have h := c1_section_offsets exNodeHeaderGood exBufferGood exOffsetsGood exBucketGood
    (by decide) (by decide)
  exact ⟨h.1.1, h.2.1.2.2.1, h.2.1.2.2.2⟩






/-- Successful `get_file` runs decompose into a successful core
resolution, an in-bounds read of exactly `comp_size` bytes at the
computed physical offset, a codec call that reported exactly
`decomp_size` bytes, and a cursor moved to the end of the read range. -/
theorem get_file_ok_extract (ext : ExternalFns) (arc : DataArc) (name bytes : List Nat)
    (arc' : DataArc) (h : get_file ext arc name = (.ok bytes, arc')) :
    ∃ (sf : FileEntry) (bf : BigFileEntry),
      get_file_core ext arc name = .ok (sf, bf) ∧
      arc.header.file_section_offset + bf.offset + sf.offset * 4 + sf.comp_size ≤
        arc.fileData.length ∧
      ext.zstd_decompress
        (readBytes arc.fileData
          (arc.header.file_section_offset + bf.offset + sf.offset * 4) sf.comp_size)
        (List.replicate sf.decomp_size 0) = .ok (sf.decomp_size, bytes) ∧
      arc' = { arc with cursor :=
        arc.header.file_section_offset + bf.offset + sf.offset * 4 + sf.comp_size } := by
  simp only [get_file] at h
  split at h
  · injection h with h1 _
    cases h1
  · rename_i sub_file big_file heq
    split at h
    · rename_i hle
      split at h
      · injection h with h1 _
        cases h1
      · rename_i n out hcodec
        split at h
        · rename_i hn
          injection h with h1 h2
          injection h1 with h3
          subst h3
          subst hn
          exact ⟨sub_file, big_file, heq, hle, hcodec, h2.symm⟩
        · injection h with h1 _
          cases h1
    · injection h with h1 _
      cases h1

/-- Successful core resolutions decompose into the chain of reads of
`get_file`: entry lookup, tree entry, sub-offset resolution, file entry,
big hash, big file, and the two compression-flag checks. -/
theorem get_file_core_ok (ext : ExternalFns) (arc : DataArc) (name : List Nat)
    (sf : FileEntry) (bf : BigFileEntry)
    (h : get_file_core ext arc name = .ok (sf, bf)) :
    ∃ (entry : EntryPair) (tree : TreeEntry) (idx : Nat) (big_hash : BigHashEntry),
      lookup_entry arc (hash40 name) = .ok entry ∧
      read_tree_entry_at arc.buffer (arc.trees + TREE_ENTRY_SIZE * entry.meta) = .ok tree ∧
      ext.tree_redirect tree.flags = false ∧
      resolve_suboffset_index ext arc tree = .ok idx ∧
      preadFileEntry arc.buffer (arc.sub_files1 + FILE_ENTRY_SIZE * idx) = .ok sf ∧
      read_big_hash_entry_at arc.buffer
        (arc.big_hashes + BIG_HASH_ENTRY_SIZE * tree.path.meta) = .ok big_hash ∧
      preadBigFileEntry arc.buffer
        (arc.big_files + BIG_FILE_ENTRY_SIZE * big_hash.path.meta) = .ok bf ∧
      ext.fe_suboffset_decompressed sf = false ∧
      ext.fe_suboffset_compressed_zstd sf = true := by
  simp only [get_file_core] at h
  split at h
  · cases h
  · rename_i entry hlook
    split at h
    · cases h
    · rename_i tree htree
      split at h
      · cases h
      · rename_i hred
        split at h
        · cases h
        · rename_i idx hidx
          split at h
          · cases h
          · rename_i sub hsub
            split at h
            · cases h
            · rename_i bh hbh
              split at h
              · cases h
              · rename_i bfe hbf
                split at h
                · cases h
                · rename_i hdec
                  split at h
                  · cases h
                  · rename_i hz
                    injection h with h1
                    injection h1 with h2 h3
                    subst h2
                    subst h3
                    exact ⟨entry, tree, idx, bh, hlook, htree, by simpa using hred,
                      hidx, hsub, hbh, hbf, by simpa using hdec, by simpa using hz⟩

/-- Successful sub-offset resolutions follow the two-level redirect rule
of the source. -/
theorem resolve_suboffset_index_ok (ext : ExternalFns) (arc : DataArc) (tree : TreeEntry)
    (idx : Nat) (h : resolve_suboffset_index ext arc tree = .ok idx) :
    (ext.tree_suboffset_usable tree.flags = true → idx = tree.suboffset_index) ∧
    (∀ fe : FileEntry, ext.tree_suboffset_usable tree.flags = false →
      preadFileEntry arc.buffer (arc.sub_files1 + FILE_ENTRY_SIZE * tree.ext.meta) = .ok fe →
      idx = if ext.fe_suboffset_redir fe then tree.ext.meta + ext.fe_suboffset_tree_index fe
            else tree.ext.meta) := by
  unfold resolve_suboffset_index at h
  split at h
  · rename_i hu
    injection h with h1
    constructor
    · intro _
      exact h1.symm
    · intro fe hu2 _
      rw [hu2] at hu
      cases hu
  · rename_i hu
    split at h
    · cases h
    · rename_i fe0 hfe0
      constructor
      · intro hu2
        exact absurd hu2 hu
      · intro fe hu2 hfe
        rw [hfe0] at hfe
        injection hfe with hfe2
        subst hfe2
        split at h
        · rename_i hr
          injection h with h1
          rw [if_pos hr]
          exact h1.symm
        · rename_i hr
          injection h with h1
          rw [if_neg hr]
          exact h1.symm

/-- C3: for a file resolved without a tree redirect, the effective
`FileEntry` index is the tree entry's own `suboffset_index` when the
flags mark it directly usable; otherwise it is `tree.ext.meta`, bumped by
`fe_suboffset_tree_index` when the `FileEntry` at `tree.ext.meta` is a
sub-offset redirect; and after a successful `get_file` the file cursor
sits exactly `comp_size` past the physical offset
`file_section_offset + big_file.offset + file_entry.offset * 4`, where
`big_file` was reached through the `BigHashEntry` at `tree.path.meta`. -/
theorem c3_resolution_chain (ext : ExternalFns) (arc : DataArc) (name bytes : List Nat)
    (arc' : DataArc) (entry : EntryPair) (tree : TreeEntry) (idx : Nat)
    (sub_file : FileEntry) (big_hash : BigHashEntry) (big_file : BigFileEntry)
    (hrun : get_file ext arc name = (.ok bytes, arc'))
    (hlook : lookup_entry arc (hash40 name) = .ok entry)
    (htree : read_tree_entry_at arc.buffer (arc.trees + TREE_ENTRY_SIZE * entry.meta) = .ok tree)
    (hidx : resolve_suboffset_index ext arc tree = .ok idx)
    (hsub : preadFileEntry arc.buffer (arc.sub_files1 + FILE_ENTRY_SIZE * idx) = .ok sub_file)
    (hbh : read_big_hash_entry_at arc.buffer
      (arc.big_hashes + BIG_HASH_ENTRY_SIZE * tree.path.meta) = .ok big_hash)
    (hbf : preadBigFileEntry arc.buffer
      (arc.big_files + BIG_FILE_ENTRY_SIZE * big_hash.path.meta) = .ok big_file) :
    ext.tree_redirect tree.flags = false ∧
    (ext.tree_suboffset_usable tree.flags = true → idx = tree.suboffset_index) ∧
    (∀ fe : FileEntry, ext.tree_suboffset_usable tree.flags = false →
      preadFileEntry arc.buffer (arc.sub_files1 + FILE_ENTRY_SIZE * tree.ext.meta) = .ok fe →
      idx = if ext.fe_suboffset_redir fe then tree.ext.meta + ext.fe_suboffset_tree_index fe
            else tree.ext.meta) ∧
    arc'.cursor = arc.header.file_section_offset + big_file.offset + sub_file.offset * 4 +
      sub_file.comp_size := by
  obtain ⟨sf', bf', hcore, hbound, hcodec, harc⟩ :=
    get_file_ok_extract ext arc name bytes arc' hrun
  obtain ⟨entry', tree', idx', bh', hlook', htree', hred', hidx', hsub', hbh', hbf', _, _⟩ :=
    get_file_core_ok ext arc name sf' bf' hcore
  rw [hlook] at hlook'
  injection hlook' with he
  subst he
  rw [htree] at htree'
  injection htree' with ht
  subst ht
  rw [hidx] at hidx'
  injection hidx' with hi
  subst hi
  rw [hsub] at hsub'
  injection hsub' with hs
  subst hs
  rw [hbh] at hbh'
  injection hbh' with hb
  subst hb
  rw [hbf] at hbf'
  injection hbf' with hf
  subst hf
  obtain ⟨h1, h2⟩ := resolve_suboffset_index_ok ext arc tree idx hidx
  refine ⟨hred', h1, h2, ?_⟩
  rw [harc]

/-- Witness: `c3_resolution_chain` on the fixture archive with the empty
path: there is no redirect and the cursor lands at
`file_section_offset + 0 + 0 * 4 + comp_size`. -/
theorem c3_resolution_chain_witness :
    extEx.tree_redirect exTreeGood.flags = false ∧
    exArcGoodAfter.cursor = exArcGood.header.file_section_offset + exBigFileGood.offset +
      exSubFileGood.offset * 4 + exSubFileGood.comp_size := by
  have h := c3_resolution_chain extEx exArcGood [] [0, 0, 0, 0] exArcGoodAfter
    ⟨0, 0⟩ exTreeGood 0 exSubFileGood exBigHashGood exBigFileGood
    (by decide) (by decide) (by decide) (by decide) (by decide) (by decide) (by decide)
  exact ⟨h.1, h.2.2.2⟩

/-- C5: when the codec preserves the destination buffer's length (as
`zstd::block::decompress_to_buffer`, which writes through a slice, does),
every successful `get_file` read exactly `comp_size` bytes from the
computed physical offset, called the codec on a destination buffer of
exactly `decomp_size` zeros, and the codec reported exactly `decomp_size`
bytes produced (a different count is rejected as a size mismatch), so the
returned byte vector's length equals the resolved `FileEntry`'s
`decomp_size`. -/
theorem c5_extraction_sizes (ext : ExternalFns) (arc : DataArc) (name bytes : List Nat)
    (arc' : DataArc) (sf : FileEntry) (bf : BigFileEntry)
    (hlen : ∀ comp buf n out, ext.zstd_decompress comp buf = .ok (n, out) →
      out.length = buf.length)
    (hcore : get_file_core ext arc name = .ok (sf, bf))
    (hrun : get_file ext arc name = (.ok bytes, arc')) :
    bytes.length = sf.decomp_size ∧
    arc.header.file_section_offset + bf.offset + sf.offset * 4 + sf.comp_size ≤
      arc.fileData.length ∧
    (readBytes arc.fileData (arc.header.file_section_offset + bf.offset + sf.offset * 4)
      sf.comp_size).length = sf.comp_size ∧
    ext.zstd_decompress
      (readBytes arc.fileData (arc.header.file_section_offset + bf.offset + sf.offset * 4)
        sf.comp_size)
      (List.replicate sf.decomp_size 0) = .ok (sf.decomp_size, bytes) := by
  obtain ⟨sf', bf', hcore', hbound, hcodec, harc⟩ :=
    get_file_ok_extract ext arc name bytes arc' hrun
  rw [hcore] at hcore'
  injection hcore' with h1
  injection h1 with h2 h3
  subst h2
  subst h3
  refine ⟨?_, hbound, ?_, hcodec⟩
  · have := hlen _ _ _ _ hcodec
    simpa using this
  · simp only [readBytes, List.length_take, List.length_drop]
    omega

/-- Witness: `c5_extraction_sizes` on the fixture: the returned four
bytes match the resolved `decomp_size` 4, and exactly `comp_size` = 4
compressed bytes were read. -/
theorem c5_extraction_sizes_witness :
    ([0, 0, 0, 0] : List Nat).length = exSubFileGood.decomp_size ∧
    (readBytes exArcGood.fileData
      (exArcGood.header.file_section_offset + exBigFileGood.offset + exSubFileGood.offset * 4)
      exSubFileGood.comp_size).length = exSubFileGood.comp_size := by
  have h := c5_extraction_sizes extEx exArcGood [] [0, 0, 0, 0] exArcGoodAfter
    exSubFileGood exBigFileGood
    (by intro comp buf n out hh
        injection hh with h1
        injection h1 with h2 h3
        subst h3
        rfl)
    (by decide) (by decide)
  exact ⟨h.1, h.2.2.1⟩

/-- The post-state of any `get_file` call is the input accessor with at
most the file cursor changed. -/
theorem get_file_snd_cursor (ext : ExternalFns) (arc : DataArc) (name : List Nat) :
    ∃ c, (get_file ext arc name).2 = { arc with cursor := c } := by
  unfold get_file
  split
  · exact ⟨arc.cursor, rfl⟩
  · dsimp only
    split
    · split
      · exact ⟨_, rfl⟩
      · split
        · exact ⟨_, rfl⟩
        · exact ⟨_, rfl⟩
    · exact ⟨_, rfl⟩

/-- The result value of `get_file` does not depend on the incoming file
cursor: the extraction seeks to an absolute position first. -/
theorem get_file_fst_cursor (ext : ExternalFns) (arc : DataArc) (c : Nat) (name : List Nat) :
    (get_file ext { arc with cursor := c } name).1 = (get_file ext arc name).1 := by
  unfold get_file
  rw [show get_file_core ext { arc with cursor := c } name = get_file_core ext arc name
    from rfl]
  cases hcore : get_file_core ext arc name with
  | error e => rfl
  | ok p => rfl

/-- C10: every `get_file` call leaves the header, the metadata buffer,
the underlying file bytes, the stored first hash bucket and all fifteen
section offsets unchanged — only the file cursor moves — and a second
call with the same path on the resulting accessor returns the identical
result. -/
theorem c10_frame (ext : ExternalFns) (arc : DataArc) (name : List Nat) :
    ((get_file ext arc name).2.header = arc.header ∧
     (get_file ext arc name).2.buffer = arc.buffer ∧
     (get_file ext arc name).2.fileData = arc.fileData ∧
     (get_file ext arc name).2.first_hash_bucket = arc.first_hash_bucket ∧
     (get_file ext arc name).2.bulkfile_hash_lookup = arc.bulkfile_hash_lookup ∧
     (get_file ext arc name).2.bulkfiles_by_name = arc.bulkfiles_by_name ∧
     (get_file ext arc name).2.bulkfile_lookup_to_fileidx = arc.bulkfile_lookup_to_fileidx ∧
     (get_file ext arc name).2.file_pairs = arc.file_pairs ∧
     (get_file ext arc name).2.another_hash_table = arc.another_hash_table ∧
     (get_file ext arc name).2.big_hashes = arc.big_hashes ∧
     (get_file ext arc name).2.big_files = arc.big_files ∧
     (get_file ext arc name).2.folder_hash_lookup = arc.folder_hash_lookup ∧
     (get_file ext arc name).2.trees = arc.trees ∧
     (get_file ext arc name).2.sub_files1 = arc.sub_files1 ∧
     (get_file ext arc name).2.sub_files2 = arc.sub_files2 ∧
     (get_file ext arc name).2.folder_to_big_hash = arc.folder_to_big_hash ∧
     (get_file ext arc name).2.file_lookup_buckets = arc.file_lookup_buckets ∧
     (get_file ext arc name).2.file_lookup = arc.file_lookup ∧
     (get_file ext arc name).2.numbers = arc.numbers) ∧
    (get_file ext ((get_file ext arc name).2) name).1 = (get_file ext arc name).1 := by
  obtain ⟨c, hc⟩ := get_file_snd_cursor ext arc name
  constructor
  · rw [hc]
    exact ⟨rfl, rfl, rfl, rfl, rfl, rfl, rfl, rfl, rfl, rfl, rfl, rfl, rfl, rfl, rfl,
      rfl, rfl, rfl, rfl⟩
  · rw [hc]
    exact get_file_fst_cursor ext arc c name

/-- C1 counterexample: a concrete archive with `movie_count = 1` and all
other counts zero constructs successfully, yet its
`bulkfile_hash_lookup` offset is 0xc, not 0 (the bulkfile-category-info
triplet table precedes it), and the adjacent `bulkfiles_by_name` offset
is equal to it rather than strictly greater. -/
theorem c1_counterexample :
    DataArc.new exFileMovie = .ok exArcMovie ∧
    (decodeNodeHeader (readBytes exFileMovie 0x30 NODE_HEADER_SIZE)).movie_count = 1 ∧
    exArcMovie.bulkfile_hash_lookup = 0xc ∧
    exArcMovie.bulkfiles_by_name = 0xc := by
  refine ⟨by decide, by decide, by decide, by decide⟩

